import Mathlib

/-!
# Verification of the routing-oracle pipeline

A shallow embedding of the routing-oracle repository
(`oracle-pipeline.ts`, `types.ts`, `report-formatter.ts`) together with
theorems about the pipeline's behaviour.

Modelling conventions:
* JavaScript numbers are modelled as `ℚ` (all arithmetic in the pipeline is
  exact on the values it manipulates: counts, divisions, `Math.round`).
* A remote tool call (`caller.call(toolName, args)`) is modelled by a function
  from a call sequence number and the call's arguments to `Option ToolResult`:
  `none` models a rejected promise, and a `ToolResult` of the wrong constructor
  models a response whose shape fails zod validation.  Both are turned into a
  thrown error (`Except.error ()`) by the parse step, exactly as
  `Schema.parse(raw)` throws in the source.
* `async`/`await` sequencing is modelled by threading the call counter
  explicitly; each step also reports the arguments of the call it issued so
  that call-trace properties can be stated.
-/

namespace RoutingOracle

/-- A JSON value; models the untyped `unknown` payloads
(`z.record(z.unknown())`) appearing in the weather schema, and the target of
serialization. Numbers are modelled as `ℚ`. -/
inductive Json where
  | null : Json
  | bool (b : Bool) : Json
  | num (q : ℚ) : Json
  | str (s : String) : Json
  | arr (elems : List Json) : Json
  | obj (fields : List (String × Json)) : Json

/-- `capabilities` object of a `delegate_to_model` response
(`CapabilitiesSchema`). -/
structure Capabilities where
  reasoning : ℚ
  contextWindow : ℚ
  codeGeneration : ℚ
  speed : ℚ
  cost : ℚ
deriving DecidableEq

/-- One ranked alternative of a `delegate_to_model` response
(`AlternativeSchema`). -/
structure Alternative where
  model : String
  score : ℚ
  tradeoff : String
deriving DecidableEq

/-- Optional governance metadata of a `delegate_to_model` response
(`GovernanceSchema`). -/
structure Governance where
  domain : String
  votingThreshold : String
  promotionReason : String
deriving DecidableEq

/-- A validated `delegate_to_model` response (`DelegateResponseSchema`). -/
structure DelegateResponse where
  recommended_model : String
  reasoning : String
  capabilities : Capabilities
  estimated_tokens : ℚ
  alternatives : List Alternative
  governance : Option Governance
deriving DecidableEq

/-- Per-category statistics inside `CliWeatherSchema.byCategory`. -/
structure CategoryStats where
  count : ℚ
  successRate : ℚ
  avgDurationMs : ℚ
deriving DecidableEq

/-- One per-CLI weather entry (`CliWeatherSchema`); `byCategory` is a
`z.record`, modelled as an association list. -/
structure CliWeather where
  cli : String
  totalTasks : ℚ
  successRate : ℚ
  avgDurationMs : ℚ
  byCategory : List (String × CategoryStats)
deriving DecidableEq

/-- One adaptive-bonus entry (`AdaptiveBonusSchema`). -/
structure AdaptiveBonus where
  cli : String
  category : String
  staticBonus : ℚ
  adaptiveBonus : ℚ
  sampleCount : ℚ
  sufficient : Bool
deriving DecidableEq

/-- One category→CLI recommended mapping (`RecommendedMappingSchema`). -/
structure RecommendedMapping where
  category : String
  recommendedCli : String
  successRate : ℚ
  sampleCount : ℚ
  confidence : String
deriving DecidableEq

/-- The `overall` object of a weather response. -/
structure Overall where
  totalTasks : ℚ
  successRate : ℚ
  avgDurationMs : ℚ
deriving DecidableEq

/-- A validated `weather_report` response (`WeatherResponseSchema`).
`tierRecommendations` and `learningInsights` are arrays of
`z.record(z.unknown())`, modelled as association lists of `Json` values;
`learningInsights` and `recommendedMappings` are optional. -/
structure WeatherResponse where
  overall : Overall
  cliWeather : List CliWeather
  adaptiveBonuses : List AdaptiveBonus
  tierRecommendations : List (List (String × Json))
  learningInsights : Option (List (List (String × Json)))
  recommendedMappings : Option (List RecommendedMapping)
  explorationRate : ℚ
  coldStartThreshold : ℚ
  collectedAt : String

/-- Vote counts of a `consensus_vote` response. -/
structure VoteCounts where
  approve : ℚ
  reject : ℚ
  abstain : ℚ
  error : ℚ
deriving DecidableEq

/-- One individual agent vote (`AgentVoteSchema`); the `decision` enum is
modelled as its underlying string. -/
structure AgentVote where
  role : String
  decision : String
  confidence : ℚ
  reasoning : String
  simulated : Bool
  error : Bool
deriving DecidableEq

/-- A validated `consensus_vote` response (`VoteResponseSchema`); the
`strategy` and `decision` enums are modelled as strings. -/
structure VoteResponse where
  proposal : String
  strategy : String
  decision : String
  approvalPercentage : ℚ
  voteCounts : VoteCounts
  votes : List AgentVote
  durationMs : ℚ
  simulateVotes : Bool
deriving DecidableEq

/-- A known-good routing expectation (`RoutingExpectation`); the
`TaskCategory` enum is modelled as its underlying string. -/
structure RoutingExpectation where
  category : String
  task : String
  preferredCapability : String
  expectedPrimaryCli : String
  acceptableModels : List String
deriving DecidableEq

/-- The outcome of validating a single routing decision
(`RoutingValidation`). -/
structure RoutingValidation where
  category : String
  recommended : String
  expected : String
  correct : Bool
  reasoning : String
  alternatives : List String
deriving DecidableEq

/-- The aggregate report of one pipeline run (`OracleReport`);
`weather`/`voteResult` being `none` models the `null` markers. -/
structure OracleReport where
  validations : List RoutingValidation
  accuracy : ℚ
  weather : Option WeatherResponse
  voteResult : Option VoteResponse

/-- Pipeline configuration (`OracleConfig`): the optional fields
`includeWeather?`, `includeVote?`, `voteStrategy?` are modelled with `Option`
(`none` = the property is absent / `undefined`). -/
structure OracleConfig where
  expectations : List RoutingExpectation
  includeWeather : Option Bool
  includeVote : Option Bool
  voteStrategy : Option String

/-- Arguments of one `caller.call(toolName, args)` invocation, by tool name. -/
inductive ToolArgs where
  | delegate (task : String) (preferredCapability : String) : ToolArgs
  | weather (includeAdaptive : Bool) : ToolArgs
  | vote (proposal : String) (strategy : String) (quickMode : Bool)
      (simulateVotes : Bool) : ToolArgs

/-- A well-shaped result a tool call can come back with.  A caller answering a
call with the wrong constructor models a response that fails the zod schema of
the tool that was actually called. -/
inductive ToolResult where
  | delegate (r : DelegateResponse) : ToolResult
  | weather (r : WeatherResponse) : ToolResult
  | vote (r : VoteResponse) : ToolResult

/-- The `ToolCaller` interface.  The behaviour of the remote side is an
arbitrary function of the call's sequence number and arguments; `none` models
a rejected promise. -/
structure ToolCaller where
  call : Nat → ToolArgs → Option ToolResult

/-- `DelegateResponseSchema.parse`: succeeds only on a delegate-shaped
result. -/
def parseDelegate : Option ToolResult → Option DelegateResponse
  | some (ToolResult.delegate r) => some r
  | _ => none

/-- `WeatherResponseSchema.parse`: succeeds only on a weather-shaped
result. -/
def parseWeather : Option ToolResult → Option WeatherResponse
  | some (ToolResult.weather r) => some r
  | _ => none

/-- `VoteResponseSchema.parse`: succeeds only on a vote-shaped result. -/
def parseVote : Option ToolResult → Option VoteResponse
  | some (ToolResult.vote r) => some r
  | _ => none

/-- JavaScript `s.includes(pat)`: `pat` occurs as a contiguous substring of
`s`. -/
def jsIncludes (s pat : String) : Bool :=
  (List.range (s.toList.length + 1)).any
    (fun i => List.isPrefixOf pat.toList (s.toList.drop i))

/-- JavaScript `Math.round`: round half toward positive infinity. -/
def jsRound (q : ℚ) : Int := ⌊q + 1 / 2⌋

/-- The correctness rule of `routeAndValidate`:
`expectation.acceptableModels.some((m) => result.recommended_model.includes(m)
|| m.includes(result.recommended_model))`. -/
def correctFlag (acceptableModels : List String) (recommended : String) : Bool :=
  acceptableModels.any
    (fun m => jsIncludes recommended m || jsIncludes m recommended)

/-- The `RoutingValidation` literal that `routeAndValidate` returns from a
successfully parsed `DelegateResponse`. -/
def mkValidation (e : RoutingExpectation) (result : DelegateResponse) :
    RoutingValidation where
  category := e.category
  recommended := result.recommended_model
  expected := e.expectedPrimaryCli
  correct := correctFlag e.acceptableModels result.recommended_model
  reasoning := result.reasoning
  alternatives := result.alternatives.map (fun a => a.model)

/-- Step 1 (`routeAndValidate`): call `delegate_to_model` with the task text
and the preferred capability, parse the result, and build the validation.
`Except.error ()` models the thrown error (rejection or zod parse failure);
the second component records the arguments of the one call that was issued
(`k` is the call's sequence number). -/
def routeAndValidate (caller : ToolCaller) (k : Nat)
    (e : RoutingExpectation) : Except Unit RoutingValidation × ToolArgs :=
  let args := ToolArgs.delegate e.task e.preferredCapability
  (match parseDelegate (caller.call k args) with
   | some result => Except.ok (mkValidation e result)
   | none => Except.error (), args)

/-- Step 2 (`fetchWeather`): call `weather_report` with
`includeAdaptive: true` and parse the result. -/
def fetchWeather (caller : ToolCaller) (k : Nat) :
    Except Unit WeatherResponse × ToolArgs :=
  let args := ToolArgs.weather true
  (match parseWeather (caller.call k args) with
   | some w => Except.ok w
   | none => Except.error (), args)

/-- The deterministic proposal text built by `voteOnQuality`. -/
def voteProposal (validations : List RoutingValidation) : String :=
  let correct := (validations.filter (fun v => v.correct)).length
  let total := validations.length
  let accuracy : Int :=
    if total > 0 then jsRound ((correct : ℚ) / (total : ℚ) * 100) else 0
  let summary := String.intercalate "\n"
    (validations.map (fun v =>
      v.category ++ ": " ++ (if v.correct then "CORRECT" else "WRONG") ++
        " (got " ++ v.recommended ++ ", expected " ++ v.expected ++ ")"))
  "Routing accuracy is " ++ toString accuracy ++ "% (" ++ toString correct ++
    "/" ++ toString total ++ " correct).\n\n" ++
    "Results:\n" ++ summary ++ "\n\n" ++
    "Should we approve this routing quality?"

/-- Step 3 (`voteOnQuality`): build the proposal, call `consensus_vote` with
it, the strategy (defaulting to `simple_majority`), `quickMode: true` and
`simulateVotes: false`, and parse the result. -/
def voteOnQuality (caller : ToolCaller) (k : Nat)
    (validations : List RoutingValidation)
    (strategy : String := "simple_majority") :
    Except Unit VoteResponse × ToolArgs :=
  let args := ToolArgs.vote (voteProposal validations) strategy true false
  (match parseVote (caller.call k args) with
   | some v => Except.ok v
   | none => Except.error (), args)

/-- `computeAccuracy`: `0` for an empty list, otherwise
`Math.round((correct / validations.length) * 1000) / 1000`. -/
def computeAccuracy (validations : List RoutingValidation) : ℚ :=
  if validations.length = 0 then 0
  else
    (jsRound (((validations.filter (fun v => v.correct)).length : ℚ) /
        (validations.length : ℚ) * 1000) : ℚ) / 1000

/-- `getMisrouted`: `validations.filter((v) => !v.correct)`. -/
def getMisrouted (validations : List RoutingValidation) :
    List RoutingValidation :=
  validations.filter (fun v => !v.correct)

/-- `weatherConfirms`: look up the first recommended mapping for `category`
(optional chaining over the optional `recommendedMappings` list) and compare
its `recommendedCli` to `expectedCli` by string equality. -/
def weatherConfirms (weather : WeatherResponse) (category : String)
    (expectedCli : String) : Bool :=
  match weather.recommendedMappings with
  | none => false
  | some mappings =>
    match mappings.find? (fun m => m.category == category) with
    | none => false
    | some mapping => mapping.recommendedCli == expectedCli

/-- The synthetic validation substituted by the `catch` branch of the Route
stage of `runOraclePipeline`. -/
def syntheticValidation (e : RoutingExpectation) : RoutingValidation where
  category := e.category
  recommended := "ERROR"
  expected := e.expectedPrimaryCli
  correct := false
  reasoning := "Tool call failed"
  alternatives := []

/-- One iteration of the Route stage loop: `try { push(routeAndValidate …) }
catch { push(synthetic) }`. -/
def routeStep (caller : ToolCaller) (k : Nat) (e : RoutingExpectation) :
    RoutingValidation :=
  match (routeAndValidate caller k e).1 with
  | Except.ok v => v
  | Except.error _ => syntheticValidation e

/-- The Route stage loop of `runOraclePipeline`: one call per expectation, in
order, threading the call counter; returns the validation list, the counter
after the stage, and the arguments of the calls issued. -/
def routeStage (caller : ToolCaller) :
    Nat → List RoutingExpectation →
      List RoutingValidation × Nat × List ToolArgs
  | k, [] => ([], k, [])
  | k, e :: rest =>
    let v := routeStep caller k e
    let r := routeStage caller (k + 1) rest
    (v :: r.1, r.2.1, (routeAndValidate caller k e).2 :: r.2.2)

/-- `runOraclePipeline`, instrumented with the list of issued calls:
Route stage over every expectation, accuracy from the complete list, then the
optional Weather and Vote stages, each guarded by `=== true` on the optional
config flag and wrapped in its own `try`/`catch` that turns a failure into
`null`. -/
def runOraclePipelineT (caller : ToolCaller) (config : OracleConfig) :
    OracleReport × List ToolArgs :=
  let route := routeStage caller 0 config.expectations
  let validations := route.1
  let k1 := route.2.1
  let accuracy := computeAccuracy validations
  let weatherStep : Option WeatherResponse × Nat × List ToolArgs :=
    if config.includeWeather = some true then
      let s := fetchWeather caller k1
      ((match s.1 with
        | Except.ok w => some w
        | Except.error _ => none), k1 + 1, [s.2])
    else (none, k1, [])
  let voteStep : Option VoteResponse × List ToolArgs :=
    if config.includeVote = some true then
      let s := voteOnQuality caller weatherStep.2.1 validations
        (config.voteStrategy.getD "simple_majority")
      ((match s.1 with
        | Except.ok v => some v
        | Except.error _ => none), [s.2])
    else (none, [])
  ({ validations := validations
     accuracy := accuracy
     weather := weatherStep.1
     voteResult := voteStep.1 },
   route.2.2 ++ weatherStep.2.2 ++ voteStep.2)

/-- `runOraclePipeline`: the report alone. -/
def runOraclePipeline (caller : ToolCaller) (config : OracleConfig) :
    OracleReport :=
  (runOraclePipelineT caller config).1

/-- The Route stage written in the `Except` monad, with each iteration's
`try`/`catch` as `Except.tryCatch`: used to state that no error escapes the
orchestrator. -/
def routeStageE (caller : ToolCaller) :
    Nat → List RoutingExpectation →
      Except Unit (List RoutingValidation × Nat)
  | k, [] => Except.ok ([], k)
  | k, e :: rest => do
    let v ← Except.tryCatch (routeAndValidate caller k e).1
      (fun _ => Except.ok (syntheticValidation e))
    let r ← routeStageE caller (k + 1) rest
    Except.ok (v :: r.1, r.2)

/-- The whole orchestrator written in the `Except` monad, with every stage's
`try`/`catch` explicit: a stage failure is an `Except.error` of the stage
body, recovered by the handler. -/
def runOraclePipelineE (caller : ToolCaller) (config : OracleConfig) :
    Except Unit OracleReport := do
  let route ← routeStageE caller 0 config.expectations
  let validations := route.1
  let accuracy := computeAccuracy validations
  let weather ← if config.includeWeather = some true then
      Except.tryCatch
        ((fetchWeather caller route.2).1.map (fun w => some w))
        (fun _ => Except.ok none)
    else Except.ok none
  let k2 := if config.includeWeather = some true then route.2 + 1 else route.2
  let voteResult ← if config.includeVote = some true then
      Except.tryCatch
        ((voteOnQuality caller k2 validations
            (config.voteStrategy.getD "simple_majority")).1.map
          (fun v => some v))
        (fun _ => Except.ok none)
    else Except.ok none
  Except.ok
    { validations := validations
      accuracy := accuracy
      weather := weather
      voteResult := voteResult }

/-! ## Serialization (`generateReport` with format `json`)

`generateReport(report, 'json')` is `JSON.stringify(report, null, 2)`, and the
round-trip property parses the resulting string with `JSON.parse`.  The
`JSON.stringify`/`JSON.parse` pair is the host platform's JSON grammar, out of
the repository's scope; it is modelled at the JSON-value level: `encodeReport`
is the JSON value that `JSON.stringify` renders (optional `undefined`
properties omitted, `null` fields rendered as JSON `null`), and `decodeReport`
reads an arbitrary JSON value back into a report, failing on any value that is
not the serialization of a report. -/

/-- Encode a `RoutingValidation` as its JSON object. -/
def encodeValidation (v : RoutingValidation) : Json :=
  Json.obj
    [("category", Json.str v.category),
     ("recommended", Json.str v.recommended),
     ("expected", Json.str v.expected),
     ("correct", Json.bool v.correct),
     ("reasoning", Json.str v.reasoning),
     ("alternatives", Json.arr (v.alternatives.map Json.str))]

/-- Encode the `overall` object. -/
def encodeOverall (o : Overall) : Json :=
  Json.obj
    [("totalTasks", Json.num o.totalTasks),
     ("successRate", Json.num o.successRate),
     ("avgDurationMs", Json.num o.avgDurationMs)]

/-- Encode one `byCategory` entry. -/
def encodeCategoryStats (c : CategoryStats) : Json :=
  Json.obj
    [("count", Json.num c.count),
     ("successRate", Json.num c.successRate),
     ("avgDurationMs", Json.num c.avgDurationMs)]

/-- Encode a `CliWeather` entry. -/
def encodeCliWeather (w : CliWeather) : Json :=
  Json.obj
    [("cli", Json.str w.cli),
     ("totalTasks", Json.num w.totalTasks),
     ("successRate", Json.num w.successRate),
     ("avgDurationMs", Json.num w.avgDurationMs),
     ("byCategory",
      Json.obj (w.byCategory.map (fun p => (p.1, encodeCategoryStats p.2))))]

/-- Encode an `AdaptiveBonus` entry. -/
def encodeAdaptiveBonus (b : AdaptiveBonus) : Json :=
  Json.obj
    [("cli", Json.str b.cli),
     ("category", Json.str b.category),
     ("staticBonus", Json.num b.staticBonus),
     ("adaptiveBonus", Json.num b.adaptiveBonus),
     ("sampleCount", Json.num b.sampleCount),
     ("sufficient", Json.bool b.sufficient)]

/-- Encode a `RecommendedMapping` entry. -/
def encodeRecommendedMapping (m : RecommendedMapping) : Json :=
  Json.obj
    [("category", Json.str m.category),
     ("recommendedCli", Json.str m.recommendedCli),
     ("successRate", Json.num m.successRate),
     ("sampleCount", Json.num m.sampleCount),
     ("confidence", Json.str m.confidence)]

/-- Encode a `WeatherResponse`; the optional properties are omitted (not
rendered as `null`) when absent, as `JSON.stringify` does for `undefined`. -/
def encodeWeather (w : WeatherResponse) : Json :=
  Json.obj
    ([("overall", encodeOverall w.overall),
      ("cliWeather", Json.arr (w.cliWeather.map encodeCliWeather)),
      ("adaptiveBonuses",
       Json.arr (w.adaptiveBonuses.map encodeAdaptiveBonus)),
      ("tierRecommendations",
       Json.arr (w.tierRecommendations.map Json.obj))] ++
     (match w.learningInsights with
      | some li => [("learningInsights", Json.arr (li.map Json.obj))]
      | none => []) ++
     (match w.recommendedMappings with
      | some rm =>
        [("recommendedMappings", Json.arr (rm.map encodeRecommendedMapping))]
      | none => []) ++
     [("explorationRate", Json.num w.explorationRate),
      ("coldStartThreshold", Json.num w.coldStartThreshold),
      ("collectedAt", Json.str w.collectedAt)])

/-- Encode the `voteCounts` object. -/
def encodeVoteCounts (c : VoteCounts) : Json :=
  Json.obj
    [("approve", Json.num c.approve),
     ("reject", Json.num c.reject),
     ("abstain", Json.num c.abstain),
     ("error", Json.num c.error)]

/-- Encode one individual `AgentVote`. -/
def encodeAgentVote (v : AgentVote) : Json :=
  Json.obj
    [("role", Json.str v.role),
     ("decision", Json.str v.decision),
     ("confidence", Json.num v.confidence),
     ("reasoning", Json.str v.reasoning),
     ("simulated", Json.bool v.simulated),
     ("error", Json.bool v.error)]

/-- Encode a `VoteResponse`. -/
def encodeVote (v : VoteResponse) : Json :=
  Json.obj
    [("proposal", Json.str v.proposal),
     ("strategy", Json.str v.strategy),
     ("decision", Json.str v.decision),
     ("approvalPercentage", Json.num v.approvalPercentage),
     ("voteCounts", encodeVoteCounts v.voteCounts),
     ("votes", Json.arr (v.votes.map encodeAgentVote)),
     ("durationMs", Json.num v.durationMs),
     ("simulateVotes", Json.bool v.simulateVotes)]

/-- Encode an `OracleReport`; `null` fields are JSON `null`. -/
def encodeReport (r : OracleReport) : Json :=
  Json.obj
    [("validations", Json.arr (r.validations.map encodeValidation)),
     ("accuracy", Json.num r.accuracy),
     ("weather",
      match r.weather with
      | some w => encodeWeather w
      | none => Json.null),
     ("voteResult",
      match r.voteResult with
      | some v => encodeVote v
      | none => Json.null)]

/-- `generateReport(report, 'json')` at the JSON-value level: the value whose
rendering `JSON.stringify(report, null, 2)` produces. -/
def generateReportJson (report : OracleReport) : Json :=
  encodeReport report

/-- Decode a list of JSON values elementwise. -/
def decodeList (dec : Json → Option α) : List Json → Option (List α)
  | [] => some []
  | j :: rest => do
    let a ← dec j
    let as ← decodeList dec rest
    some (a :: as)

/-- Decode the values of an association list elementwise. -/
def decodeFields (dec : Json → Option α) :
    List (String × Json) → Option (List (String × α))
  | [] => some []
  | (k, j) :: rest => do
    let a ← dec j
    let as ← decodeFields dec rest
    some ((k, a) :: as)

/-- Decode an untyped JSON record (`Record<string, unknown>`). -/
def decodeRecord : Json → Option (List (String × Json))
  | Json.obj fields => some fields
  | _ => none

/-- Decode a JSON string. -/
def decodeStr : Json → Option String
  | Json.str s => some s
  | _ => none

/-- Decode a `RoutingValidation`. -/
def decodeValidation : Json → Option RoutingValidation
  | Json.obj
      [("category", Json.str category),
       ("recommended", Json.str recommended),
       ("expected", Json.str expected),
       ("correct", Json.bool correct),
       ("reasoning", Json.str reasoning),
       ("alternatives", Json.arr alternatives)] => do
    let alts ← decodeList decodeStr alternatives
    some
      { category := category, recommended := recommended,
        expected := expected, correct := correct, reasoning := reasoning,
        alternatives := alts }
  | _ => none

/-- Decode the `overall` object. -/
def decodeOverall : Json → Option Overall
  | Json.obj
      [("totalTasks", Json.num totalTasks),
       ("successRate", Json.num successRate),
       ("avgDurationMs", Json.num avgDurationMs)] =>
    some
      { totalTasks := totalTasks, successRate := successRate,
        avgDurationMs := avgDurationMs }
  | _ => none

/-- Decode one `byCategory` entry. -/
def decodeCategoryStats : Json → Option CategoryStats
  | Json.obj
      [("count", Json.num count),
       ("successRate", Json.num successRate),
       ("avgDurationMs", Json.num avgDurationMs)] =>
    some
      { count := count, successRate := successRate,
        avgDurationMs := avgDurationMs }
  | _ => none

/-- Decode a `CliWeather` entry. -/
def decodeCliWeather : Json → Option CliWeather
  | Json.obj
      [("cli", Json.str cli),
       ("totalTasks", Json.num totalTasks),
       ("successRate", Json.num successRate),
       ("avgDurationMs", Json.num avgDurationMs),
       ("byCategory", Json.obj byCategory)] => do
    let bc ← decodeFields decodeCategoryStats byCategory
    some
      { cli := cli, totalTasks := totalTasks, successRate := successRate,
        avgDurationMs := avgDurationMs, byCategory := bc }
  | _ => none

/-- Decode an `AdaptiveBonus` entry. -/
def decodeAdaptiveBonus : Json → Option AdaptiveBonus
  | Json.obj
      [("cli", Json.str cli),
       ("category", Json.str category),
       ("staticBonus", Json.num staticBonus),
       ("adaptiveBonus", Json.num adaptiveBonus),
       ("sampleCount", Json.num sampleCount),
       ("sufficient", Json.bool sufficient)] =>
    some
      { cli := cli, category := category, staticBonus := staticBonus,
        adaptiveBonus := adaptiveBonus, sampleCount := sampleCount,
        sufficient := sufficient }
  | _ => none

/-- Decode a `RecommendedMapping` entry. -/
def decodeRecommendedMapping : Json → Option RecommendedMapping
  | Json.obj
      [("category", Json.str category),
       ("recommendedCli", Json.str recommendedCli),
       ("successRate", Json.num successRate),
       ("sampleCount", Json.num sampleCount),
       ("confidence", Json.str confidence)] =>
    some
      { category := category, recommendedCli := recommendedCli,
        successRate := successRate, sampleCount := sampleCount,
        confidence := confidence }
  | _ => none

/-- Decode the tail of a weather object after the optional
`recommendedMappings` property. -/
def decodeWeatherTailB :
    List (String × Json) → Option (ℚ × ℚ × String)
  | [("explorationRate", Json.num explorationRate),
     ("coldStartThreshold", Json.num coldStartThreshold),
     ("collectedAt", Json.str collectedAt)] =>
    some (explorationRate, coldStartThreshold, collectedAt)
  | _ => none

/-- Decode the tail of a weather object after the optional
`learningInsights` property (the optional `recommendedMappings` may lead). -/
def decodeWeatherTailA :
    List (String × Json) →
      Option (Option (List RecommendedMapping) × ℚ × ℚ × String)
  | ("recommendedMappings", Json.arr rm) :: rest => do
    let rms ← decodeList decodeRecommendedMapping rm
    let t ← decodeWeatherTailB rest
    some (some rms, t)
  | rest => (decodeWeatherTailB rest).map (fun t => (none, t))

/-- Decode a `WeatherResponse` (optional properties may be absent). -/
def decodeWeather : Json → Option WeatherResponse
  | Json.obj
      (("overall", overall) ::
       ("cliWeather", Json.arr cliWeather) ::
       ("adaptiveBonuses", Json.arr adaptiveBonuses) ::
       ("tierRecommendations", Json.arr tierRecommendations) :: rest) => do
    let ov ← decodeOverall overall
    let cw ← decodeList decodeCliWeather cliWeather
    let ab ← decodeList decodeAdaptiveBonus adaptiveBonuses
    let tr ← decodeList decodeRecord tierRecommendations
    let tl ← match rest with
      | ("learningInsights", Json.arr li) :: rest2 => do
        let lis ← decodeList decodeRecord li
        (decodeWeatherTailA rest2).map (fun t => (some lis, t))
      | rest2 => (decodeWeatherTailA rest2).map (fun t => (none, t))
    some
      { overall := ov, cliWeather := cw, adaptiveBonuses := ab,
        tierRecommendations := tr, learningInsights := tl.1,
        recommendedMappings := tl.2.1, explorationRate := tl.2.2.1,
        coldStartThreshold := tl.2.2.2.1, collectedAt := tl.2.2.2.2 }
  | _ => none

/-- Decode the `voteCounts` object. -/
def decodeVoteCounts : Json → Option VoteCounts
  | Json.obj
      [("approve", Json.num approve),
       ("reject", Json.num reject),
       ("abstain", Json.num abstain),
       ("error", Json.num err)] =>
    some { approve := approve, reject := reject, abstain := abstain,
           error := err }
  | _ => none

/-- Decode one individual `AgentVote`. -/
def decodeAgentVote : Json → Option AgentVote
  | Json.obj
      [("role", Json.str role),
       ("decision", Json.str decision),
       ("confidence", Json.num confidence),
       ("reasoning", Json.str reasoning),
       ("simulated", Json.bool simulated),
       ("error", Json.bool err)] =>
    some
      { role := role, decision := decision, confidence := confidence,
        reasoning := reasoning, simulated := simulated, error := err }
  | _ => none

/-- Decode a `VoteResponse`. -/
def decodeVote : Json → Option VoteResponse
  | Json.obj
      [("proposal", Json.str proposal),
       ("strategy", Json.str strategy),
       ("decision", Json.str decision),
       ("approvalPercentage", Json.num approvalPercentage),
       ("voteCounts", voteCounts),
       ("votes", Json.arr votes),
       ("durationMs", Json.num durationMs),
       ("simulateVotes", Json.bool simulateVotes)] => do
    let vc ← decodeVoteCounts voteCounts
    let vs ← decodeList decodeAgentVote votes
    some
      { proposal := proposal, strategy := strategy, decision := decision,
        approvalPercentage := approvalPercentage, voteCounts := vc,
        votes := vs, durationMs := durationMs,
        simulateVotes := simulateVotes }
  | _ => none

/-- Decode an `OracleReport` (`JSON.parse` of the serialized report, read
back into the report shape). -/
def decodeReport : Json → Option OracleReport
  | Json.obj
      [("validations", Json.arr validations),
       ("accuracy", Json.num accuracy),
       ("weather", weather),
       ("voteResult", voteResult)] => do
    let vs ← decodeList decodeValidation validations
    let w ← match weather with
      | Json.null => some (none : Option WeatherResponse)
      | j => (decodeWeather j).map (fun w => some w)
    let vr ← match voteResult with
      | Json.null => some (none : Option VoteResponse)
      | j => (decodeVote j).map (fun v => some v)
    some { validations := vs, accuracy := accuracy, weather := w,
           voteResult := vr }
  | _ => none

/-! ## Helper lemmas about the Route stage -/

theorem routeStage_length (caller : ToolCaller) :
    ∀ (es : List RoutingExpectation) (k : Nat),
      ((routeStage caller k es).1).length = es.length := by
  intro es
  induction es with
  | nil => intro k; rfl
  | cons e rest ih =>
    intro k
    simp [routeStage, ih (k + 1)]

theorem routeStage_counter (caller : ToolCaller) :
    ∀ (es : List RoutingExpectation) (k : Nat),
      (routeStage caller k es).2.1 = k + es.length := by
  intro es
  induction es with
  | nil => intro k; simp [routeStage]
  | cons e rest ih =>
    intro k
    simp [routeStage, ih (k + 1)]
    omega

theorem routeStage_trace (caller : ToolCaller) :
    ∀ (es : List RoutingExpectation) (k : Nat),
      (routeStage caller k es).2.2 =
        es.map (fun e => ToolArgs.delegate e.task e.preferredCapability) := by
  intro es
  induction es with
  | nil => intro k; rfl
  | cons e rest ih =>
    intro k
    simp [routeStage, ih (k + 1), routeAndValidate]

theorem routeStage_getElem (caller : ToolCaller) :
    ∀ (es : List RoutingExpectation) (k i : Nat),
      ((routeStage caller k es).1)[i]? =
        (es[i]?).map (fun e => routeStep caller (k + i) e) := by
  intro es
  induction es with
  | nil => intro k i; rfl
  | cons e rest ih =>
    intro k i
    cases i with
    | zero => simp [routeStage]
    | succ j =>
      simp only [routeStage, List.getElem?_cons_succ]
      rw [ih (k + 1) j]
      have : k + 1 + j = k + (j + 1) := by omega
      rw [this]

theorem routeStage_congr (c1 c2 : ToolCaller) :
    ∀ (es : List RoutingExpectation) (k : Nat),
      (∀ j a, j < k + es.length → c1.call j a = c2.call j a) →
      routeStage c1 k es = routeStage c2 k es := by
  intro es
  induction es with
  | nil => intro k _; rfl
  | cons e rest ih =>
    intro k h
    have hstep : routeStep c1 k e = routeStep c2 k e := by
      simp [routeStep, routeAndValidate, h k _ (by simp)]
    have hargs : (routeAndValidate c1 k e).2 = (routeAndValidate c2 k e).2 :=
      rfl
    have hrest : routeStage c1 (k + 1) rest = routeStage c2 (k + 1) rest :=
      ih (k + 1) (fun j a hj => h j a (by simp at hj ⊢; omega))
    simp [routeStage, hstep, hargs, hrest]

theorem routeStageE_eq (caller : ToolCaller) :
    ∀ (es : List RoutingExpectation) (k : Nat),
      routeStageE caller k es =
        Except.ok ((routeStage caller k es).1, (routeStage caller k es).2.1) := by
  intro es
  induction es with
  | nil => intro k; rfl
  | cons e rest ih =>
    intro k
    simp only [routeStageE, routeStage]
    rw [ih (k + 1)]
    cases h : (routeAndValidate caller k e).1 with
    | ok v =>
      simp [Except.tryCatch, h, routeStep, bind, Except.bind]
    | error u =>
      simp [Except.tryCatch, h, routeStep, bind, Except.bind]

/-- C5: `runOraclePipeline` is total toward its caller: for every
configuration and every behaviour of the tool caller (each call returning
either a result of arbitrary shape or an error), the orchestrator — written
in the error monad with every stage's `try`/`catch` explicit — always
returns `Except.ok` of the assembled Oracle Report; no stage failure is
surfaced as a fault. -/
theorem pipeline_total (caller : ToolCaller) (config : OracleConfig) :
    runOraclePipelineE caller config =
      Except.ok (runOraclePipeline caller config) := by
  unfold runOraclePipelineE runOraclePipeline runOraclePipelineT
  rw [routeStageE_eq]
  rw [routeStage_counter]
  simp only [Nat.zero_add]
  by_cases hw : config.includeWeather = some true
  · by_cases hv : config.includeVote = some true
    · cases hfw : (fetchWeather caller config.expectations.length).1 with
      | ok w =>
        cases hvo : (voteOnQuality caller (config.expectations.length + 1)
            ((routeStage caller 0 config.expectations).1)
            (config.voteStrategy.getD "simple_majority")).1 with
        | ok v =>
          simp [hw, hv, hfw, hvo, Except.tryCatch, Except.map, bind,
            Except.bind, routeStage_counter]
        | error u =>
          simp [hw, hv, hfw, hvo, Except.tryCatch, Except.map, bind,
            Except.bind, routeStage_counter]
      | error u =>
        cases hvo : (voteOnQuality caller (config.expectations.length + 1)
            ((routeStage caller 0 config.expectations).1)
            (config.voteStrategy.getD "simple_majority")).1 with
        | ok v =>
          simp [hw, hv, hfw, hvo, Except.tryCatch, Except.map, bind,
            Except.bind, routeStage_counter]
        | error u2 =>
          simp [hw, hv, hfw, hvo, Except.tryCatch, Except.map, bind,
            Except.bind, routeStage_counter]
    · cases hfw : (fetchWeather caller config.expectations.length).1 with
      | ok w =>
        simp [hw, hv, hfw, Except.tryCatch, Except.map, bind, Except.bind,
          routeStage_counter]
      | error u =>
        simp [hw, hv, hfw, Except.tryCatch, Except.map, bind, Except.bind,
          routeStage_counter]
  · by_cases hv : config.includeVote = some true
    · cases hvo : (voteOnQuality caller config.expectations.length
          ((routeStage caller 0 config.expectations).1)
          (config.voteStrategy.getD "simple_majority")).1 with
      | ok v =>
        simp [hw, hv, hvo, Except.tryCatch, Except.map, bind, Except.bind,
          routeStage_counter]
      | error u =>
        simp [hw, hv, hvo, Except.tryCatch, Except.map, bind, Except.bind,
          routeStage_counter]
    · simp [hw, hv, Except.tryCatch, Except.map, bind, Except.bind,
        routeStage_counter]

/-- C3: `computeAccuracy` returns `Math.round((correct/total)*1000)/1000`
for a non-empty validation list and exactly `0` for the empty list; the result
is always in `[0, 1]`; two correct of three total give `0.667`; and a
pipeline report's `accuracy` field is `computeAccuracy` of its complete
validation list. -/
theorem computeAccuracy_spec (vs : List RoutingValidation)
    (caller : ToolCaller) (config : OracleConfig) :
    (vs ≠ [] →
      computeAccuracy vs =
        (jsRound (((vs.filter (fun v => v.correct)).length : ℚ) /
            (vs.length : ℚ) * 1000) : ℚ) / 1000) ∧
    computeAccuracy [] = 0 ∧
    (0 ≤ computeAccuracy vs ∧ computeAccuracy vs ≤ 1) ∧
    computeAccuracy
        [⟨"architecture", "m1", "claude", true, "r", []⟩,
         ⟨"code_generation", "m2", "claude", true, "r", []⟩,
         ⟨"research", "m3", "claude", false, "r", []⟩] = 667 / 1000 ∧
    (runOraclePipeline caller config).accuracy =
      computeAccuracy (runOraclePipeline caller config).validations := by
  refine ⟨?_, rfl, ⟨?_, ?_⟩,
    by unfold computeAccuracy jsRound; norm_num [List.filter], rfl⟩
  · intro hne
    unfold computeAccuracy
    rw [if_neg (by simpa using hne)]
  · unfold computeAccuracy
    split
    · norm_num
    · next h =>
      have hq : (0 : ℚ) ≤
          ((vs.filter (fun v => v.correct)).length : ℚ) /
            (vs.length : ℚ) * 1000 := by
        positivity
      have hfl : (0 : Int) ≤ jsRound
          (((vs.filter (fun v => v.correct)).length : ℚ) /
            (vs.length : ℚ) * 1000) := by
        unfold jsRound
        exact Int.le_floor.mpr (by push_cast; linarith)
      have : (0 : ℚ) ≤ (jsRound
          (((vs.filter (fun v => v.correct)).length : ℚ) /
            (vs.length : ℚ) * 1000) : ℚ) := by
        exact_mod_cast hfl
      linarith
  · unfold computeAccuracy
    split
    · norm_num
    · next h =>
      have hlen : (0 : ℚ) < (vs.length : ℚ) := by
        have : 0 < vs.length := Nat.pos_of_ne_zero h
        exact_mod_cast this
      have hle : ((vs.filter (fun v => v.correct)).length : ℚ) ≤
          (vs.length : ℚ) := by
        exact_mod_cast List.length_filter_le (fun v => v.correct) vs
      have hdiv : ((vs.filter (fun v => v.correct)).length : ℚ) /
          (vs.length : ℚ) ≤ 1 :=
        (div_le_one hlen).mpr hle
      have harg : ((vs.filter (fun v => v.correct)).length : ℚ) /
          (vs.length : ℚ) * 1000 + 1 / 2 < 1001 := by
        nlinarith
      have hfl : jsRound
          (((vs.filter (fun v => v.correct)).length : ℚ) /
            (vs.length : ℚ) * 1000) ≤ 1000 := by
        unfold jsRound
        have := Int.floor_lt.mpr
          (show ((vs.filter (fun v => v.correct)).length : ℚ) /
              (vs.length : ℚ) * 1000 + 1 / 2 < ((1001 : Int) : ℚ) by
            push_cast; linarith)
        omega
      have : (jsRound
          (((vs.filter (fun v => v.correct)).length : ℚ) /
            (vs.length : ℚ) * 1000) : ℚ) ≤ 1000 := by
        exact_mod_cast hfl
      linarith

/-- Witness for C3 at a concrete input: a singleton all-correct list is
non-empty and its accuracy is `round(1/1*1000)/1000 = 1`. -/
theorem computeAccuracy_spec_witness :
    ([⟨"architecture", "m", "claude", true, "r", []⟩] :
        List RoutingValidation) ≠ [] ∧
    computeAccuracy [⟨"architecture", "m", "claude", true, "r", []⟩] =
      (jsRound ((([(⟨"architecture", "m", "claude", true, "r", []⟩ :
            RoutingValidation)].filter (fun v => v.correct)).length : ℚ) /
          (([(⟨"architecture", "m", "claude", true, "r", []⟩ :
            RoutingValidation)].length : ℚ)) * 1000) : ℚ) / 1000 :=
  ⟨by decide,
   (computeAccuracy_spec
      [⟨"architecture", "m", "claude", true, "r", []⟩]
      ⟨fun _ _ => none⟩ ⟨[], none, none, none⟩).1 (by decide)⟩

/-- C7: `getMisrouted` returns exactly the sublist of validations with
`correct = false`: an order-preserving sublist, all of whose members are
incorrect, containing every incorrect member of the input with its
multiplicity, and empty when every validation is correct. -/
theorem getMisrouted_spec (vs : List RoutingValidation) :
    List.Sublist (getMisrouted vs) vs ∧
    (∀ v ∈ getMisrouted vs, v.correct = false) ∧
    (∀ v ∈ vs, v.correct = false → v ∈ getMisrouted vs) ∧
    (∀ v : RoutingValidation, v.correct = false →
      (getMisrouted vs).count v = vs.count v) ∧
    ((∀ v ∈ vs, v.correct = true) → getMisrouted vs = []) := by
  refine ⟨List.filter_sublist vs, ?_, ?_, ?_, ?_⟩
  · intro v hv
    have := List.of_mem_filter hv
    simpa using this
  · intro v hv hfalse
    exact List.mem_filter.mpr ⟨hv, by simp [hfalse]⟩
  · intro v hfalse
    exact List.count_filter (by simp [hfalse])
  · intro hall
    apply List.filter_eq_nil_iff.mpr
    intro v hv
    simp [hall v hv]

/-- Witness for C7 at a concrete input: of a two-element list whose second
validation is incorrect, the incorrect one is in the misrouted list, and an
all-correct singleton yields the empty misrouted list. -/
theorem getMisrouted_spec_witness :
    (⟨"research", "gemini", "claude", false, "r", []⟩ : RoutingValidation) ∈
      getMisrouted
        [⟨"architecture", "claude-opus", "claude", true, "r", []⟩,
         ⟨"research", "gemini", "claude", false, "r", []⟩] ∧
    getMisrouted [⟨"architecture", "claude-opus", "claude", true, "r", []⟩] =
      [] :=
  ⟨(getMisrouted_spec
      [⟨"architecture", "claude-opus", "claude", true, "r", []⟩,
       ⟨"research", "gemini", "claude", false, "r", []⟩]).2.2.1
      ⟨"research", "gemini", "claude", false, "r", []⟩ (by decide) rfl,
   (getMisrouted_spec
      [⟨"architecture", "claude-opus", "claude", true, "r", []⟩]).2.2.2.2
      (by decide)⟩

/-- C8: `weatherConfirms` is false when the snapshot has no
`recommendedMappings` list, false when no entry of that list has the given
category, and true exactly when the first entry for that category has
`recommendedCli` equal to the expected destination. -/
theorem weatherConfirms_spec (w : WeatherResponse)
    (category expectedCli : String) :
    (w.recommendedMappings = none →
      weatherConfirms w category expectedCli = false) ∧
    (∀ l, w.recommendedMappings = some l →
      (∀ m ∈ l, m.category ≠ category) →
      weatherConfirms w category expectedCli = false) ∧
    (∀ l m, w.recommendedMappings = some l →
      l.find? (fun m2 => m2.category == category) = some m →
      (weatherConfirms w category expectedCli = true ↔
        m.recommendedCli = expectedCli)) := by
  refine ⟨?_, ?_, ?_⟩
  · intro h
    simp [weatherConfirms, h]
  · intro l hl habs
    have hfind : l.find? (fun m2 => m2.category == category) = none := by
      apply List.find?_eq_none.mpr
      intro m hm
      simpa using habs m hm
    simp [weatherConfirms, hl, hfind]
  · intro l m hl hfind
    simp [weatherConfirms, hl, hfind]

/-- Witness for C8 at concrete inputs: a snapshot whose mapping list holds
one entry for `research` recommending `gemini` confirms (`research`,
`gemini`), and an empty (cold) snapshot confirms nothing. -/
theorem weatherConfirms_spec_witness :
    weatherConfirms
        ⟨⟨0, 0, 0⟩, [], [], [], none,
         some [⟨"research", "gemini", 1, 5, "high"⟩], 0, 0, "now"⟩
        "research" "gemini" = true ∧
    weatherConfirms ⟨⟨0, 0, 0⟩, [], [], [], none, none, 0, 0, "now"⟩
        "research" "gemini" = false :=
  ⟨((weatherConfirms_spec
      ⟨⟨0, 0, 0⟩, [], [], [], none,
       some [⟨"research", "gemini", 1, 5, "high"⟩], 0, 0, "now"⟩
      "research" "gemini").2.2
      [⟨"research", "gemini", 1, 5, "high"⟩]
      ⟨"research", "gemini", 1, 5, "high"⟩ rfl (by rfl)).mpr rfl,
   (weatherConfirms_spec
      ⟨⟨0, 0, 0⟩, [], [], [], none, none, 0, 0, "now"⟩
      "research" "gemini").1 rfl⟩

/-- C1 (counterexample): the correctness flag is NOT an iff with the
bidirectional-substring rule for synthetic validations.  With one expectation
whose acceptable set is `["ERROR"]` and a caller whose call fails, the
report's only validation has recommended destination `"ERROR"` and
`correct = false`, although the bidirectional-substring rule on `"ERROR"`
against the acceptable set evaluates to `true`. -/
theorem correctness_rule_counterexample :
    ((runOraclePipeline ⟨fun _ _ => none⟩
        ⟨[⟨"code_generation", "t", "code", "claude", ["ERROR"]⟩],
          none, none, none⟩).validations.map
      (fun v => (v.recommended, v.correct)) = [("ERROR", false)]) ∧
    correctFlag ["ERROR"] "ERROR" = true :=
  ⟨rfl, by decide⟩

/-- C1 (amended): for every successfully parsed routing response,
`routeAndValidate` sets `correct` to
`acceptableModels.some((m) => recommended.includes(m) ||
m.includes(recommended))`, and the report's i-th validation is exactly the
one built from the i-th call's parsed response; when the i-th call fails,
the substituted synthetic validation has `correct = false` regardless of the
rule. -/
theorem correctness_rule (caller : ToolCaller) (config : OracleConfig)
    (i : Nat) (e : RoutingExpectation)
    (he : config.expectations[i]? = some e) :
    (∀ k v, (routeAndValidate caller k e).1 = Except.ok v →
      v.correct = correctFlag e.acceptableModels v.recommended) ∧
    (∀ r, parseDelegate (caller.call i
        (ToolArgs.delegate e.task e.preferredCapability)) = some r →
      (runOraclePipeline caller config).validations[i]? =
        some (mkValidation e r) ∧
      (mkValidation e r).correct =
        correctFlag e.acceptableModels r.recommended_model) ∧
    (parseDelegate (caller.call i
        (ToolArgs.delegate e.task e.preferredCapability)) = none →
      ((runOraclePipeline caller config).validations[i]?).map
          (fun v => v.correct) = some false) := by
  have hval : (runOraclePipeline caller config).validations[i]? =
      some (routeStep caller i e) := by
    show ((routeStage caller 0 config.expectations).1)[i]? = _
    rw [routeStage_getElem caller config.expectations 0 i, he]
    simp
  refine ⟨?_, ?_, ?_⟩
  · intro k v hv
    unfold routeAndValidate at hv
    cases h : parseDelegate
        (caller.call k (ToolArgs.delegate e.task e.preferredCapability)) with
    | some r =>
      simp only [h] at hv
      cases hv
      rfl
    | none =>
      simp only [h] at hv
      cases hv
  · intro r hr
    constructor
    · rw [hval]
      simp [routeStep, routeAndValidate, hr]
    · rfl
  · intro hr
    rw [hval]
    simp [routeStep, routeAndValidate, hr, syntheticValidation]

/-- Witness for C1 (amended) at a concrete input: a caller that recommends
`claude-opus` for the single expectation with acceptable set
`["claude-opus", "claude-sonnet"]` yields that validation at index 0 with
`correct` given by the rule (which evaluates to `true` here). -/
theorem correctness_rule_witness :
    (runOraclePipeline
        ⟨fun _ _ => some (ToolResult.delegate
          ⟨"claude-opus", "best fit", ⟨9, 8, 9, 5, 3⟩, 1200, [], none⟩)⟩
        ⟨[⟨"code_generation", "t", "code", "claude",
            ["claude-opus", "claude-sonnet"]⟩], none, none, none⟩).validations[0]? =
      some (mkValidation
        ⟨"code_generation", "t", "code", "claude",
          ["claude-opus", "claude-sonnet"]⟩
        ⟨"claude-opus", "best fit", ⟨9, 8, 9, 5, 3⟩, 1200, [], none⟩) ∧
    correctFlag ["claude-opus", "claude-sonnet"] "claude-opus" = true :=
  ⟨((correctness_rule
      ⟨fun _ _ => some (ToolResult.delegate
        ⟨"claude-opus", "best fit", ⟨9, 8, 9, 5, 3⟩, 1200, [], none⟩)⟩
      ⟨[⟨"code_generation", "t", "code", "claude",
          ["claude-opus", "claude-sonnet"]⟩], none, none, none⟩ 0
      ⟨"code_generation", "t", "code", "claude",
        ["claude-opus", "claude-sonnet"]⟩ rfl).2.1
      ⟨"claude-opus", "best fit", ⟨9, 8, 9, 5, 3⟩, 1200, [], none⟩ rfl).1,
   by decide⟩

/-- C2: when the i-th routing call fails, the report still contains one
validation per expectation, the i-th one being exactly the synthetic record
with recommended `"ERROR"`, `correct = false`, reasoning
`"Tool call failed"` and no alternatives, carrying the expectation's category
and expected destination; every other expectation is still validated from its
own call. -/
theorem route_failure_isolated (caller : ToolCaller) (config : OracleConfig)
    (i : Nat) (e : RoutingExpectation)
    (he : config.expectations[i]? = some e)
    (hfail : parseDelegate (caller.call i
        (ToolArgs.delegate e.task e.preferredCapability)) = none) :
    (runOraclePipeline caller config).validations[i]? =
      some ⟨e.category, "ERROR", e.expectedPrimaryCli, false,
        "Tool call failed", []⟩ ∧
    (runOraclePipeline caller config).validations.length =
      config.expectations.length ∧
    (∀ j ej, config.expectations[j]? = some ej →
      (runOraclePipeline caller config).validations[j]? =
        some (routeStep caller j ej)) := by
  refine ⟨?_, ?_, ?_⟩
  · show ((routeStage caller 0 config.expectations).1)[i]? = _
    rw [routeStage_getElem caller config.expectations 0 i, he]
    simp [routeStep, routeAndValidate, hfail, syntheticValidation]
  · exact routeStage_length caller config.expectations 0
  · intro j ej hj
    show ((routeStage caller 0 config.expectations).1)[j]? = _
    rw [routeStage_getElem caller config.expectations 0 j, hj]
    simp

/-- Witness for C2 at a concrete input: with two expectations and a caller
that fails every call, the report holds two validations and the first is the
synthetic ERROR record. -/
theorem route_failure_isolated_witness :
    (runOraclePipeline ⟨fun _ _ => none⟩
        ⟨[⟨"architecture", "t1", "reasoning", "claude", ["claude-opus"]⟩,
          ⟨"research", "t2", "context", "gemini", ["gemini-pro"]⟩],
          none, none, none⟩).validations[0]? =
      some ⟨"architecture", "ERROR", "claude", false, "Tool call failed",
        []⟩ ∧
    (runOraclePipeline ⟨fun _ _ => none⟩
        ⟨[⟨"architecture", "t1", "reasoning", "claude", ["claude-opus"]⟩,
          ⟨"research", "t2", "context", "gemini", ["gemini-pro"]⟩],
          none, none, none⟩).validations.length = 2 :=
  have h := route_failure_isolated ⟨fun _ _ => none⟩
    ⟨[⟨"architecture", "t1", "reasoning", "claude", ["claude-opus"]⟩,
      ⟨"research", "t2", "context", "gemini", ["gemini-pro"]⟩],
      none, none, none⟩ 0
    ⟨"architecture", "t1", "reasoning", "claude", ["claude-opus"]⟩ rfl rfl
  ⟨h.1, h.2.1.trans rfl⟩

/-- C6: the pipeline issues exactly one routing call per expectation, in
configuration order (the delegate calls of the full call trace are exactly
`expectations.map (delegate task capability)`), and the validation list is
index-aligned with the expectation list: same length, and the i-th validation
carries the i-th expectation's category and expected destination. -/
theorem pipeline_calls_inorder (caller : ToolCaller) (config : OracleConfig) :
    ((runOraclePipelineT caller config).2.filter
        (fun a => match a with
          | ToolArgs.delegate _ _ => true
          | _ => false)) =
      config.expectations.map
        (fun e => ToolArgs.delegate e.task e.preferredCapability) ∧
    (runOraclePipeline caller config).validations.length =
      config.expectations.length ∧
    (∀ (i : Nat) (v : RoutingValidation) (e : RoutingExpectation),
      (runOraclePipeline caller config).validations[i]? = some v →
      config.expectations[i]? = some e →
      v.category = e.category ∧ v.expected = e.expectedPrimaryCli) := by
  refine ⟨?_, routeStage_length caller config.expectations 0, ?_⟩
  · show ((routeStage caller 0 config.expectations).2.2 ++ _ ++ _).filter _ = _
    rw [List.filter_append, List.filter_append,
      routeStage_trace caller config.expectations 0, List.filter_map]
    have h1 : (List.filter
        ((fun a => match a with
          | ToolArgs.delegate _ _ => true
          | _ => false) ∘
          (fun e => ToolArgs.delegate e.task e.preferredCapability))
        config.expectations) = config.expectations := by
      apply List.filter_eq_self.mpr
      intro e _
      rfl
    rw [h1]
    have h2 : ∀ wt : Option WeatherResponse × Nat × List ToolArgs,
        wt.2.2 = [] ∨ wt.2.2 = [ToolArgs.weather true] →
        wt.2.2.filter (fun a => match a with
          | ToolArgs.delegate _ _ => true
          | _ => false) = [] := by
      intro wt h
      rcases h with h | h <;> rw [h] <;> rfl
    by_cases hw : config.includeWeather = some true <;>
      by_cases hv : config.includeVote = some true <;>
      simp [hw, hv, fetchWeather, voteOnQuality]
  · intro i v e hv he
    have hval : (runOraclePipeline caller config).validations[i]? =
        some (routeStep caller i e) := by
      show ((routeStage caller 0 config.expectations).1)[i]? = _
      rw [routeStage_getElem caller config.expectations 0 i, he]
      simp
    rw [hval] at hv
    cases hv
    cases h2 : parseDelegate
        (caller.call i (ToolArgs.delegate e.task e.preferredCapability)) with
    | some r =>
      constructor <;>
        simp [routeStep, routeAndValidate, h2, mkValidation]
    | none =>
      constructor <;>
        simp [routeStep, routeAndValidate, h2, syntheticValidation]

/-- Witness for C6 at a concrete input: one expectation, failing caller — the
call trace holds exactly the one delegate call, and the validation at index 0
carries the expectation's category and expected destination. -/
theorem pipeline_calls_inorder_witness :
    ((runOraclePipelineT ⟨fun _ _ => none⟩
        ⟨[⟨"architecture", "t1", "reasoning", "claude", ["claude-opus"]⟩],
          none, none, none⟩).2.filter
        (fun a => match a with
          | ToolArgs.delegate _ _ => true
          | _ => false)) = [ToolArgs.delegate "t1" "reasoning"] ∧
    ((⟨"architecture", "ERROR", "claude", false, "Tool call failed", []⟩ :
        RoutingValidation).category =
      (⟨"architecture", "t1", "reasoning", "claude", ["claude-opus"]⟩ :
        RoutingExpectation).category ∧
    (⟨"architecture", "ERROR", "claude", false, "Tool call failed", []⟩ :
        RoutingValidation).expected =
      (⟨"architecture", "t1", "reasoning", "claude", ["claude-opus"]⟩ :
        RoutingExpectation).expectedPrimaryCli) :=
  ⟨(pipeline_calls_inorder ⟨fun _ _ => none⟩
      ⟨[⟨"architecture", "t1", "reasoning", "claude", ["claude-opus"]⟩],
        none, none, none⟩).1,
   (pipeline_calls_inorder ⟨fun _ _ => none⟩
      ⟨[⟨"architecture", "t1", "reasoning", "claude", ["claude-opus"]⟩],
        none, none, none⟩).2.2 0
      ⟨"architecture", "ERROR", "claude", false, "Tool call failed", []⟩
      ⟨"architecture", "t1", "reasoning", "claude", ["claude-opus"]⟩
      rfl rfl⟩

/-- C10: `voteOnQuality` on an empty validation list still issues exactly one
`consensus_vote` call, whose proposal's headline reads
"Routing accuracy is 0% (0/0 correct)." (the `total > 0` guard avoids the
division), with strategy defaulting to `simple_majority`, `quickMode = true`
and `simulateVotes = false`. -/
theorem voteOnQuality_empty (caller : ToolCaller) (k : Nat) :
    (voteOnQuality caller k []).2 =
      ToolArgs.vote
        ("Routing accuracy is 0% (0/0 correct).\n\n" ++
          "Results:\n\n\n" ++
          "Should we approve this routing quality?")
        "simple_majority" true false :=
  rfl

/-- The three report fields of `runOraclePipeline`, written against the
stage functions: used to settle C4. -/
theorem pipeline_fields (caller : ToolCaller) (config : OracleConfig) :
    (runOraclePipeline caller config).validations =
      (routeStage caller 0 config.expectations).1 ∧
    (runOraclePipeline caller config).weather =
      (if config.includeWeather = some true then
        match (fetchWeather caller config.expectations.length).1 with
        | Except.ok w => some w
        | Except.error _ => none
       else none) ∧
    (runOraclePipeline caller config).voteResult =
      (if config.includeVote = some true then
        match (voteOnQuality caller
            (if config.includeWeather = some true then
              config.expectations.length + 1
             else config.expectations.length)
            (routeStage caller 0 config.expectations).1
            (config.voteStrategy.getD "simple_majority")).1 with
        | Except.ok v => some v
        | Except.error _ => none
       else none) := by
  unfold runOraclePipeline runOraclePipelineT
  simp only [routeStage_counter, Nat.zero_add]
  by_cases hw : config.includeWeather = some true <;>
    by_cases hv : config.includeVote = some true <;>
    simp [hw, hv]

/-- C4: the report's `weather` field is non-`none` only if the configuration
set `includeWeather === true` and the weather call succeeded, and likewise
`voteResult` only if `includeVote === true` and the vote call succeeded; a
failed optional stage yields `none` for that field; and an arbitrary change
of behaviour at the weather (resp. vote) call slot alone — including making
it fail — leaves the validation list and the other optional field
unchanged. -/
theorem optional_stages_spec (caller caller' : ToolCaller)
    (config : OracleConfig) :
    (∀ w, (runOraclePipeline caller config).weather = some w →
      config.includeWeather = some true ∧
      (fetchWeather caller config.expectations.length).1 = Except.ok w) ∧
    (config.includeWeather = some true →
      (fetchWeather caller config.expectations.length).1 = Except.error () →
      (runOraclePipeline caller config).weather = none) ∧
    (config.includeWeather ≠ some true →
      (runOraclePipeline caller config).weather = none) ∧
    (∀ v, (runOraclePipeline caller config).voteResult = some v →
      config.includeVote = some true ∧
      (voteOnQuality caller
          (if config.includeWeather = some true then
            config.expectations.length + 1
           else config.expectations.length)
          (runOraclePipeline caller config).validations
          (config.voteStrategy.getD "simple_majority")).1 = Except.ok v) ∧
    (config.includeVote = some true →
      (voteOnQuality caller
          (if config.includeWeather = some true then
            config.expectations.length + 1
           else config.expectations.length)
          (runOraclePipeline caller config).validations
          (config.voteStrategy.getD "simple_majority")).1 =
        Except.error () →
      (runOraclePipeline caller config).voteResult = none) ∧
    (config.includeVote ≠ some true →
      (runOraclePipeline caller config).voteResult = none) ∧
    (config.includeWeather = some true →
      (∀ k a, k ≠ config.expectations.length →
        caller'.call k a = caller.call k a) →
      (runOraclePipeline caller' config).validations =
        (runOraclePipeline caller config).validations ∧
      (runOraclePipeline caller' config).voteResult =
        (runOraclePipeline caller config).voteResult) ∧
    (config.includeVote = some true →
      (∀ k a, k ≠ (if config.includeWeather = some true then
            config.expectations.length + 1
           else config.expectations.length) →
        caller'.call k a = caller.call k a) →
      (runOraclePipeline caller' config).validations =
        (runOraclePipeline caller config).validations ∧
      (runOraclePipeline caller' config).weather =
        (runOraclePipeline caller config).weather) := by
  obtain ⟨hV, hW, hR⟩ := pipeline_fields caller config
  obtain ⟨hV', hW', hR'⟩ := pipeline_fields caller' config
  refine ⟨?_, ?_, ?_, ?_, ?_, ?_, ?_, ?_⟩
  · intro w hw
    rw [hW] at hw
    by_cases h : config.includeWeather = some true
    · rw [if_pos h] at hw
      refine ⟨h, ?_⟩
      cases hfw : (fetchWeather caller config.expectations.length).1 with
      | ok w2 => rw [hfw] at hw; cases hw; rfl
      | error u => rw [hfw] at hw; cases hw
    · rw [if_neg h] at hw
      cases hw
  · intro h hfail
    rw [hW, if_pos h, hfail]
  · intro h
    rw [hW, if_neg h]
  · intro v hv
    rw [hR] at hv
    by_cases h : config.includeVote = some true
    · rw [if_pos h] at hv
      refine ⟨h, ?_⟩
      rw [hV]
      cases hvo : (voteOnQuality caller
          (if config.includeWeather = some true then
            config.expectations.length + 1
           else config.expectations.length)
          (routeStage caller 0 config.expectations).1
          (config.voteStrategy.getD "simple_majority")).1 with
      | ok v2 => rw [hvo] at hv; cases hv; rfl
      | error u => rw [hvo] at hv; cases hv
    · rw [if_neg h] at hv
      cases hv
  · intro h hfail
    rw [hV] at hfail
    rw [hR, if_pos h, hfail]
  · intro h
    rw [hR, if_neg h]
  · intro hw hagree
    have hroute : routeStage caller' 0 config.expectations =
        routeStage caller 0 config.expectations :=
      routeStage_congr caller' caller config.expectations 0
        (fun j a hj => hagree j a (by omega))
    have hvals : (runOraclePipeline caller' config).validations =
        (runOraclePipeline caller config).validations := by
      rw [hV, hV', hroute]
    refine ⟨hvals, ?_⟩
    rw [hR, hR', hroute, if_pos hw]
    have hcall : caller'.call (config.expectations.length + 1) =
        caller.call (config.expectations.length + 1) := by
      funext a
      exact hagree _ a (by omega)
    simp [voteOnQuality, hcall]
  · intro hv hagree
    have hm : ∀ j, j < config.expectations.length →
        j ≠ (if config.includeWeather = some true then
          config.expectations.length + 1
         else config.expectations.length) := by
      intro j hj
      split <;> omega
    have hroute : routeStage caller' 0 config.expectations =
        routeStage caller 0 config.expectations :=
      routeStage_congr caller' caller config.expectations 0
        (fun j a hj => hagree j a (hm j (by omega)))
    have hvals : (runOraclePipeline caller' config).validations =
        (runOraclePipeline caller config).validations := by
      rw [hV, hV', hroute]
    refine ⟨hvals, ?_⟩
    rw [hW, hW']
    by_cases h : config.includeWeather = some true
    · rw [if_pos h, if_pos h]
      have hcall : caller'.call config.expectations.length =
          caller.call config.expectations.length := by
        funext a
        refine hagree _ a ?_
        rw [if_pos h]
        omega
      simp [fetchWeather, hcall]
    · rw [if_neg h, if_neg h]

/-- Witness for C4 at concrete inputs: with one expectation,
`includeWeather = some true`, `includeVote = some false` and a caller that
fails every call, the weather field is `none`; and a caller differing only at
the weather slot leaves the validation list unchanged. -/
theorem optional_stages_spec_witness :
    (runOraclePipeline ⟨fun _ _ => none⟩
        ⟨[⟨"architecture", "t1", "reasoning", "claude", ["claude-opus"]⟩],
          some true, some false, none⟩).weather = none ∧
    (runOraclePipeline
        ⟨fun k _ => if k = 1 then
          some (ToolResult.weather
            ⟨⟨0, 0, 0⟩, [], [], [], none, none, 0, 0, "now"⟩)
         else none⟩
        ⟨[⟨"architecture", "t1", "reasoning", "claude", ["claude-opus"]⟩],
          some true, some false, none⟩).validations =
      (runOraclePipeline ⟨fun _ _ => none⟩
        ⟨[⟨"architecture", "t1", "reasoning", "claude", ["claude-opus"]⟩],
          some true, some false, none⟩).validations :=
  ⟨(optional_stages_spec ⟨fun _ _ => none⟩ ⟨fun _ _ => none⟩
      ⟨[⟨"architecture", "t1", "reasoning", "claude", ["claude-opus"]⟩],
        some true, some false, none⟩).2.1 rfl rfl,
   ((optional_stages_spec ⟨fun _ _ => none⟩
      ⟨fun k _ => if k = 1 then
        some (ToolResult.weather
          ⟨⟨0, 0, 0⟩, [], [], [], none, none, 0, 0, "now"⟩)
       else none⟩
      ⟨[⟨"architecture", "t1", "reasoning", "claude", ["claude-opus"]⟩],
        some true, some false, none⟩).2.2.2.2.2.2.1 rfl
      (by
        intro k a hk
        simp only []
        rw [if_neg (by simpa using hk)])).1⟩

/-! ## Round-trip lemmas for the serialized report -/

theorem decodeList_encode {α : Type} (dec : Json → Option α) (enc : α → Json)
    (h : ∀ a, dec (enc a) = some a) :
    ∀ l : List α, decodeList dec (l.map enc) = some l := by
  intro l
  induction l with
  | nil => rfl
  | cons a rest ih => simp [decodeList, h, ih]

theorem decodeFields_encode {α : Type} (dec : Json → Option α)
    (enc : α → Json) (h : ∀ a, dec (enc a) = some a) :
    ∀ l : List (String × α),
      decodeFields dec (l.map (fun p => (p.1, enc p.2))) = some l := by
  intro l
  induction l with
  | nil => rfl
  | cons p rest ih =>
    cases p
    simp [decodeFields, h, ih]

theorem decodeValidation_encode (v : RoutingValidation) :
    decodeValidation (encodeValidation v) = some v := by
  cases v
  simp [encodeValidation, decodeValidation,
    decodeList_encode decodeStr Json.str (fun s => rfl)]

theorem decodeOverall_encode (o : Overall) :
    decodeOverall (encodeOverall o) = some o := by
  cases o
  rfl

theorem decodeCategoryStats_encode (c : CategoryStats) :
    decodeCategoryStats (encodeCategoryStats c) = some c := by
  cases c
  rfl

theorem decodeCliWeather_encode (w : CliWeather) :
    decodeCliWeather (encodeCliWeather w) = some w := by
  cases w
  simp [encodeCliWeather, decodeCliWeather,
    decodeFields_encode decodeCategoryStats encodeCategoryStats
      decodeCategoryStats_encode]

theorem decodeAdaptiveBonus_encode (b : AdaptiveBonus) :
    decodeAdaptiveBonus (encodeAdaptiveBonus b) = some b := by
  cases b
  rfl

theorem decodeRecommendedMapping_encode (m : RecommendedMapping) :
    decodeRecommendedMapping (encodeRecommendedMapping m) = some m := by
  cases m
  rfl

theorem decodeWeather_encode (w : WeatherResponse) :
    decodeWeather (encodeWeather w) = some w := by
  obtain ⟨ov, cw, ab, tr, li, rm, er, cs, ca⟩ := w
  cases li <;> cases rm <;>
    simp [encodeWeather, decodeWeather, decodeWeatherTailA,
      decodeWeatherTailB, decodeOverall_encode,
      decodeList_encode decodeCliWeather encodeCliWeather
        decodeCliWeather_encode,
      decodeList_encode decodeAdaptiveBonus encodeAdaptiveBonus
        decodeAdaptiveBonus_encode,
      decodeList_encode decodeRecord Json.obj (fun f => rfl),
      decodeList_encode decodeRecommendedMapping encodeRecommendedMapping
        decodeRecommendedMapping_encode]

theorem decodeVoteCounts_encode (c : VoteCounts) :
    decodeVoteCounts (encodeVoteCounts c) = some c := by
  cases c
  rfl

theorem decodeAgentVote_encode (v : AgentVote) :
    decodeAgentVote (encodeAgentVote v) = some v := by
  cases v
  rfl

theorem decodeVote_encode (v : VoteResponse) :
    decodeVote (encodeVote v) = some v := by
  cases v
  simp [encodeVote, decodeVote, decodeVoteCounts_encode,
    decodeList_encode decodeAgentVote encodeAgentVote decodeAgentVote_encode]

/-- C9: rendering an Oracle Report in the structured (`'json'`) format and
parsing the result back yields the original report: `decodeReport` inverts
`generateReportJson` on every report. -/
theorem report_roundtrip (r : OracleReport) :
    decodeReport (generateReportJson r) = some r := by
  obtain ⟨vs, acc, w, vr⟩ := r
  have hvs := decodeList_encode decodeValidation encodeValidation
    decodeValidation_encode vs
  cases w with
  | none =>
    cases vr with
    | none => simp [generateReportJson, encodeReport, decodeReport, hvs]
    | some v =>
      have hv := decodeVote_encode v
      obtain ⟨fv, hfv⟩ : ∃ f, encodeVote v = Json.obj f := ⟨_, rfl⟩
      rw [hfv] at hv
      simp [generateReportJson, encodeReport, decodeReport, hvs, hfv, hv]
  | some wth =>
    have hw := decodeWeather_encode wth
    obtain ⟨fw, hfw⟩ : ∃ f, encodeWeather wth = Json.obj f := ⟨_, rfl⟩
    rw [hfw] at hw
    cases vr with
    | none =>
      simp [generateReportJson, encodeReport, decodeReport, hvs, hfw, hw]
    | some v =>
      have hv := decodeVote_encode v
      obtain ⟨fv, hfv⟩ : ∃ f, encodeVote v = Json.obj f := ⟨_, rfl⟩
      rw [hfv] at hv
      simp [generateReportJson, encodeReport, decodeReport, hvs, hfw, hw,
        hfv, hv]

end RoutingOracle
